import Mathlib

/-!
# Verification of the Aerialytic orientation optimizer

Shallow embedding of `src/aerialytic/pv_modeling/optimal_orientation.py`,
`src/aerialytic/pv_modeling/solar_calculation_test.py` and
`src/aerialytic/views.py`.

Modelling conventions:
* Python floats are embedded as `ℚ` (the programs only perform field
  operations, truncation and comparisons on them).
* The external pvlib calls (`get_solarposition`, `get_clearsky`,
  `get_total_irradiance`) followed by the pandas `.sum()` are a black box:
  the optimizer only ever consumes, for each candidate `(tilt, azimuth)`
  pair, the annual plane-of-array sum `poa_irradiance.sum()`.  That
  composite response is the parameter `f : ℚ → ℕ → ℚ`
  (tilt, azimuth ↦ annual POA sum in Wh/m²).  Fixing `f` fixes the
  external model response and the reference start time.
* Python `range(a, b, s)` is `List.range' a n s` with
  `n = ⌈(b - a) / s⌉` computed by hand for the concrete ranges used.
* `list(set(xs))` followed by `xs.sort()` produces the ascending
  duplicate-free list of the elements, embedded as `List.dedup` followed
  by `List.insertionSort` (sortedness makes the arbitrary Python set
  order immaterial).
* The HTTP layer models a JSON body as three optional fields whose values
  are a number, JSON `null`, or some other value that Python `float()`
  rejects; the response is either the 200 payload or a 400 error string.
-/

set_option maxRecDepth 2000

/-- Python `max(0, min(90, x))` from the tilt-candidate construction. -/
def pyClamp (x : ℚ) : ℚ := max 0 (min 90 x)

/-- Python `int(x)` on a float: truncation toward zero. -/
def pyTrunc (x : ℚ) : ℤ := if 0 ≤ x then ⌊x⌋ else -⌊-x⌋

/-- `tz_offset = int(longitude / 15)` (identical in both optimizer copies). -/
def tzOffset (longitude : ℚ) : ℤ := pyTrunc (longitude / 15)

/-- `base_tilts = range(0, 91, 5)`. -/
def baseTilts : List ℕ := List.range' 0 19 5

/-- `tilts = [max(0, min(90, tilt - ground_slope_offset)) for tilt in base_tilts]`,
then `tilts = list(set(tilts))` and `tilts.sort()`. -/
def tiltCandidates (ground_slope_offset : ℚ) : List ℚ :=
  ((baseTilts.map (fun (b : ℕ) => pyClamp ((b : ℚ) - ground_slope_offset))).dedup).insertionSort (· ≤ ·)

/-- Azimuth candidates of `optimal_orientation.py`:
`range(90, 271, 5)` if `latitude >= 0`, else
`[az % 360 for az in range(270, 451, 5)]`. -/
def azimuthCandidates (latitude : ℚ) : List ℕ :=
  if 0 ≤ latitude then List.range' 90 37 5
  else (List.range' 270 37 5).map (· % 360)

/-- The nested `for tilt in tilts: for azimuth in azimuths:` iteration of
`optimal_orientation.py`, flattened to a list of pairs (tilt-major). -/
def searchGrid (latitude ground_slope_offset : ℚ) : List (ℚ × ℕ) :=
  (tiltCandidates ground_slope_offset).flatMap
    (fun t => (azimuthCandidates latitude).map (fun a => (t, a)))

/-- One step of the reduction: state is `(max_irradiance, (optimal_tilt,
optimal_azimuth))`; `if annual_irradiance > max_irradiance:` updates all
three variables. -/
def searchStep (f : ℚ → ℕ → ℚ) (acc : ℚ × ℚ × ℕ) (p : ℚ × ℕ) : ℚ × ℚ × ℕ :=
  if acc.1 < f p.1 p.2 then (f p.1 p.2, p.1, p.2) else acc

/-- The result dictionary of `get_optimal_orientation`. -/
structure OptResult where
  optimal_tilt : ℚ
  optimal_azimuth : ℕ
  effective_tilt : ℚ
  ground_slope_offset : ℚ
  annual_irradiance_kwh_m2 : ℚ
deriving DecidableEq, Repr

/-- `get_optimal_orientation` of `optimal_orientation.py`.  `f` is the
black-box composite of the pvlib model and the annual sum (see header);
the loop starts from `max_irradiance = 0`, `optimal_tilt = 0`,
`optimal_azimuth = 0`. -/
def getOptimalOrientation (f : ℚ → ℕ → ℚ)
    (latitude : ℚ) (longitude : ℚ) (ground_slope_offset : ℚ := 0) : OptResult :=
  let r := (searchGrid latitude ground_slope_offset).foldl (searchStep f) (0, 0, 0)
  { optimal_tilt := r.2.1
    optimal_azimuth := r.2.2
    effective_tilt := r.2.1 + ground_slope_offset
    ground_slope_offset := ground_slope_offset
    annual_irradiance_kwh_m2 := r.1 / 1000 }

/-- Azimuth candidates of the second copy in `solar_calculation_test.py`:
`range(120, 241, 5)` if `latitude >= 0`, else
`list(range(0, 61, 5)) + list(range(300, 361, 5))`. -/
def azimuthCandidatesTest (latitude : ℚ) : List ℕ :=
  if 0 ≤ latitude then List.range' 120 25 5
  else List.range' 0 13 5 ++ List.range' 300 13 5

/-- Iteration order of the copy in `solar_calculation_test.py`. -/
def searchGridTest (latitude ground_slope_offset : ℚ) : List (ℚ × ℕ) :=
  (tiltCandidates ground_slope_offset).flatMap
    (fun t => (azimuthCandidatesTest latitude).map (fun a => (t, a)))

/-- `get_optimal_orientation` of `solar_calculation_test.py` (identical to
the main copy except for the azimuth candidate set). -/
def getOptimalOrientationTest (f : ℚ → ℕ → ℚ)
    (latitude : ℚ) (longitude : ℚ) (ground_slope_offset : ℚ := 0) : OptResult :=
  let r := (searchGridTest latitude ground_slope_offset).foldl (searchStep f) (0, 0, 0)
  { optimal_tilt := r.2.1
    optimal_azimuth := r.2.2
    effective_tilt := r.2.1 + ground_slope_offset
    ground_slope_offset := ground_slope_offset
    annual_irradiance_kwh_m2 := r.1 / 1000 }

/-- The reduction as claim C2 words it, for comparison with the source:
identical fold, but iterating the azimuth candidates in ascending numeric
order rather than in the constructed list order. -/
def specAscendingGrid (latitude ground_slope_offset : ℚ) : List (ℚ × ℕ) :=
  (tiltCandidates ground_slope_offset).flatMap
    (fun t => ((azimuthCandidates latitude).insertionSort (· ≤ ·)).map (fun a => (t, a)))

/-- The optimizer result under the claim-C2 iteration order
(`specAscendingGrid` instead of `searchGrid`). -/
def specOrderedOptimalOrientation (f : ℚ → ℕ → ℚ)
    (latitude : ℚ) (longitude : ℚ) (ground_slope_offset : ℚ := 0) : OptResult :=
  let r := (specAscendingGrid latitude ground_slope_offset).foldl (searchStep f) (0, 0, 0)
  { optimal_tilt := r.2.1
    optimal_azimuth := r.2.2
    effective_tilt := r.2.1 + ground_slope_offset
    ground_slope_offset := ground_slope_offset
    annual_irradiance_kwh_m2 := r.1 / 1000 }

/-- Latitude normalization of `views.py`
(`180 - lat` above 90, `-180 - lat` below -90). -/
def normalizeLatitude (latitude_raw : ℚ) : ℚ :=
  if latitude_raw > 90 then 180 - latitude_raw
  else if latitude_raw < -90 then -180 - latitude_raw
  else latitude_raw

/-- Python float `%` with a positive modulus: `a - b * ⌊a / b⌋`. -/
def pyMod (a b : ℚ) : ℚ := a - b * ⌊a / b⌋

/-- Longitude normalization of `views.py`:
`((longitude_raw + 180) % 360) - 180`. -/
def normalizeLongitude (longitude_raw : ℚ) : ℚ :=
  pyMod (longitude_raw + 180) 360 - 180

/-- A JSON value as far as the handler can distinguish them: a number,
`null`, or anything else (a value Python `float()` rejects). -/
inductive Json where
  | num (q : ℚ)
  | null
  | other
deriving DecidableEq, Repr

/-- The parsed JSON request body: each field is present (`some`) or
absent (`none`). -/
structure Body where
  latitude : Option Json
  longitude : Option Json
  offset : Option Json
deriving DecidableEq, Repr

/-- The handler's response: the 200 JSON payload or a 400 error body. -/
inductive ApiResponse where
  | ok (latitude longitude offset optimal_tilt : ℚ) (optimal_azimuth : ℕ)
       (effective_tilt annual_irradiance_kwh_m2 : ℚ)
  | badRequest (error : String)
deriving DecidableEq, Repr

/-- Python `float(data.get(key))`: succeeds only on a number
(`data.get` yields `None` both for an absent key and a JSON `null`,
and `float(None)` raises `TypeError`). -/
def pyFloat : Option Json → Option ℚ
  | some (.num q) => some q
  | _ => none

/-- `0.0 if data.get('offset') is None else float(data.get('offset'))`:
absent and `null` both give `0.0`; a non-numeric value fails. -/
def parseOffset : Option Json → Option ℚ
  | none => some 0
  | some .null => some 0
  | some (.num q) => some q
  | some .other => none

/-- Python `round` to the nearest integer, halves to even (banker's
rounding), used by `round(x, 2)`. -/
def pyRoundHalfEven (x : ℚ) : ℤ :=
  if x - ⌊x⌋ = 1 / 2 then (if 2 ∣ ⌊x⌋ then ⌊x⌋ else ⌊x⌋ + 1) else round x

/-- Python `round(x, 2)`. -/
def pyRound2 (x : ℚ) : ℚ := (pyRoundHalfEven (x * 100) : ℚ) / 100

/-- `solar_geometry_api_view` of `views.py` on a parsed JSON body.  `f` is
the black-box model response threaded through to
`get_optimal_orientation`.  The `raise ValueError` paths surface through
the outer `except ValueError` as `Invalid input values: {str(e)}`. -/
def solarGeometryApiView (f : ℚ → ℕ → ℚ) (b : Body) : ApiResponse :=
  if b.latitude.isNone then .badRequest "Missing required parameter: latitude"
  else if b.longitude.isNone then .badRequest "Missing required parameter: longitude"
  else
    match pyFloat b.latitude with
    | none => .badRequest "Invalid latitude value"
    | some latitude_raw =>
      if latitude_raw < -360 ∨ 360 < latitude_raw then
        .badRequest "Invalid input values: Latitude must be between -360 and 360"
      else
        match pyFloat b.longitude with
        | none => .badRequest "Invalid longitude value"
        | some longitude_raw =>
          if longitude_raw < -360 ∨ 360 < longitude_raw then
            .badRequest "Invalid input values: Longitude must be between -360 and 360"
          else
            match parseOffset b.offset with
            | none => .badRequest "Invalid offset value"
            | some offset =>
              if offset < -90 ∨ 90 < offset then
                .badRequest "Invalid input values: Offset (ground slope) must be between -90 and 90 degrees"
              else
                let r := getOptimalOrientation f (normalizeLatitude latitude_raw)
                  (normalizeLongitude longitude_raw) offset
                .ok (normalizeLatitude latitude_raw) (normalizeLongitude longitude_raw)
                  offset r.optimal_tilt r.optimal_azimuth r.effective_tilt
                  (pyRound2 r.annual_irradiance_kwh_m2)

/-- The running maximum of the annual sums over a list of candidate pairs,
beginning at `m` (`m = 0` at the loop entry). -/
def runningMax (f : ℚ → ℕ → ℚ) (m : ℚ) (l : List (ℚ × ℕ)) : ℚ :=
  (l.map (fun p => f p.1 p.2)).foldl max m

/-- The final value of `max_irradiance` for the main copy. -/
def annualMax (f : ℚ → ℕ → ℚ) (latitude ground_slope_offset : ℚ) : ℚ :=
  runningMax f 0 (searchGrid latitude ground_slope_offset)

/-- The `(optimal_tilt, optimal_azimuth)` pair the reduction ends with:
the first pair of the grid (in iteration order) attaining the final
running maximum when some candidate beats the initial 0, and the initial
`(0, 0)` otherwise. -/
def bestPair (f : ℚ → ℕ → ℚ) (latitude ground_slope_offset : ℚ) : ℚ × ℕ :=
  if 0 < annualMax f latitude ground_slope_offset then
    ((searchGrid latitude ground_slope_offset).find?
      (fun p => decide (f p.1 p.2 = annualMax f latitude ground_slope_offset))).getD (0, 0)
  else (0, 0)

/-- Running maximum over the claim-C2-order grid. -/
def annualMaxSpec (f : ℚ → ℕ → ℚ) (latitude ground_slope_offset : ℚ) : ℚ :=
  runningMax f 0 (specAscendingGrid latitude ground_slope_offset)

/-- First maximiser over the claim-C2-order grid. -/
def bestPairSpec (f : ℚ → ℕ → ℚ) (latitude ground_slope_offset : ℚ) : ℚ × ℕ :=
  if 0 < annualMaxSpec f latitude ground_slope_offset then
    ((specAscendingGrid latitude ground_slope_offset).find?
      (fun p => decide (f p.1 p.2 = annualMaxSpec f latitude ground_slope_offset))).getD (0, 0)
  else (0, 0)

section FoldLemmas

lemma foldl_max_le_self (l : List ℚ) (m : ℚ) : m ≤ l.foldl max m := by
  induction l generalizing m with
  | nil => exact le_refl m
  | cons a l ih => exact le_trans (le_max_left m a) (ih (max m a))

lemma le_foldl_max (l : List ℚ) (m x : ℚ) (hx : x ∈ l) : x ≤ l.foldl max m := by
  induction l generalizing m with
  | nil => cases hx
  | cons a l ih =>
    rcases List.mem_cons.1 hx with rfl | hx
    · exact le_trans (le_max_right m x) (foldl_max_le_self l (max m x))
    · exact ih (max m a) hx

lemma foldl_max_eq_self_or_mem (l : List ℚ) (m : ℚ) :
    l.foldl max m = m ∨ l.foldl max m ∈ l := by
  induction l generalizing m with
  | nil => exact Or.inl rfl
  | cons a l ih =>
    rcases ih (max m a) with h | h
    · rw [List.foldl_cons, h]
      rcases le_or_lt a m with hle | hlt
      · exact Or.inl (max_eq_left hle)
      · exact Or.inr (by rw [max_eq_right hlt.le]; exact List.mem_cons_self a l)
    · exact Or.inr (List.mem_cons_of_mem a h)

lemma foldl_max_le (l : List ℚ) (m b : ℚ) (hm : m ≤ b) (h : ∀ x ∈ l, x ≤ b) :
    l.foldl max m ≤ b := by
  rcases foldl_max_eq_self_or_mem l m with he | he
  · rw [he]; exact hm
  · exact h _ he

lemma runningMax_cons (f : ℚ → ℕ → ℚ) (m : ℚ) (p : ℚ × ℕ) (l : List (ℚ × ℕ)) :
    runningMax f m (p :: l) = runningMax f (max m (f p.1 p.2)) l := by
  simp [runningMax]

lemma le_runningMax_self (f : ℚ → ℕ → ℚ) (m : ℚ) (l : List (ℚ × ℕ)) :
    m ≤ runningMax f m l :=
  foldl_max_le_self _ m

lemma le_runningMax (f : ℚ → ℕ → ℚ) (m : ℚ) (l : List (ℚ × ℕ)) (p : ℚ × ℕ)
    (hp : p ∈ l) : f p.1 p.2 ≤ runningMax f m l :=
  le_foldl_max _ m _ (List.mem_map_of_mem _ hp)

lemma runningMax_le (f : ℚ → ℕ → ℚ) (m b : ℚ) (l : List (ℚ × ℕ)) (hm : m ≤ b)
    (h : ∀ p ∈ l, f p.1 p.2 ≤ b) : runningMax f m l ≤ b := by
  refine foldl_max_le _ m b hm ?_
  intro x hx
  rcases List.mem_map.1 hx with ⟨p, hp, rfl⟩
  exact h p hp

lemma runningMax_eq_self_or_attained (f : ℚ → ℕ → ℚ) (m : ℚ) (l : List (ℚ × ℕ)) :
    runningMax f m l = m ∨ ∃ p ∈ l, f p.1 p.2 = runningMax f m l := by
  rcases foldl_max_eq_self_or_mem (l.map (fun p => f p.1 p.2)) m with h | h
  · exact Or.inl h
  · rcases List.mem_map.1 h with ⟨p, hp, he⟩
    exact Or.inr ⟨p, hp, he⟩

/-- Full characterisation of the source's strict-improvement reduction:
the accumulated value is the running maximum and the accumulated pair is
the first pair attaining it (the starting pair when nothing beats the
starting value). -/
lemma searchFold_eq (f : ℚ → ℕ → ℚ) (l : List (ℚ × ℕ)) (m : ℚ) (d : ℚ × ℕ) :
    l.foldl (searchStep f) (m, d) =
      (runningMax f m l,
       if m < runningMax f m l then
         (l.find? (fun p => decide (f p.1 p.2 = runningMax f m l))).getD d
       else d) := by
  induction l generalizing m d with
  | nil => simp [runningMax]
  | cons p l ih =>
    rw [List.foldl_cons, runningMax_cons]
    by_cases h : m < f p.1 p.2
    · have hstep : searchStep f (m, d) p = (f p.1 p.2, p.1, p.2) := by
        simp [searchStep, h]
      have hmax : max m (f p.1 p.2) = f p.1 p.2 := max_eq_right h.le
      rw [hstep, hmax]
      have hle : f p.1 p.2 ≤ runningMax f (f p.1 p.2) l := le_runningMax_self f _ l
      have hm_lt : m < runningMax f (f p.1 p.2) l := lt_of_lt_of_le h hle
      rw [show ((f p.1 p.2, p.1, p.2) : ℚ × ℚ × ℕ) = (f p.1 p.2, (p.1, p.2)) from rfl,
        ih (f p.1 p.2) (p.1, p.2)]
      rw [if_pos hm_lt]
      by_cases hv : f p.1 p.2 = runningMax f (f p.1 p.2) l
      · have hfind : (p :: l).find?
            (fun q => decide (f q.1 q.2 = runningMax f (f p.1 p.2) l)) = some p :=
          List.find?_cons_of_pos _ (by simpa using hv)
        rw [if_neg (by rw [← hv]; exact lt_irrefl _), hfind]
        simp
      · have hvlt : f p.1 p.2 < runningMax f (f p.1 p.2) l := lt_of_le_of_ne hle hv
        have hfind : (p :: l).find?
            (fun q => decide (f q.1 q.2 = runningMax f (f p.1 p.2) l)) =
            l.find? (fun q => decide (f q.1 q.2 = runningMax f (f p.1 p.2) l)) :=
          List.find?_cons_of_neg _ (by simpa using hv)
        rw [if_pos hvlt, hfind]
        rcases runningMax_eq_self_or_attained f (f p.1 p.2) l with he | ⟨q, hq, hqe⟩
        · exact absurd he.symm hv
        · have hsome : (l.find?
              (fun q => decide (f q.1 q.2 = runningMax f (f p.1 p.2) l))).isSome := by
            rw [List.find?_isSome]
            exact ⟨q, hq, by simpa using hqe⟩
          rcases Option.isSome_iff_exists.1 hsome with ⟨r, hr⟩
          rw [hr]
          rfl
    · have hstep : searchStep f (m, d) p = (m, d) := by
        simp [searchStep, h]
      have hmax : max m (f p.1 p.2) = m := max_eq_left (not_lt.1 h)
      rw [hstep, hmax, ih m d]
      by_cases hm : m < runningMax f m l
      · have hne : ¬ f p.1 p.2 = runningMax f m l := fun he => h (by rw [he]; exact hm)
        have hfind : (p :: l).find?
            (fun q => decide (f q.1 q.2 = runningMax f m l)) =
            l.find? (fun q => decide (f q.1 q.2 = runningMax f m l)) :=
          List.find?_cons_of_neg _ (by simpa using hne)
        rw [if_pos hm, if_pos hm, hfind]
      · rw [if_neg hm, if_neg hm]

/-- If no candidate's annual sum exceeds the accumulated maximum, the
strict comparison never fires and the accumulator is returned unchanged. -/
lemma searchFold_no_update (f : ℚ → ℕ → ℚ) (m : ℚ) (d : ℚ × ℕ) (l : List (ℚ × ℕ))
    (h : ∀ p ∈ l, f p.1 p.2 ≤ m) :
    l.foldl (searchStep f) (m, d) = (m, d) := by
  induction l with
  | nil => rfl
  | cons p l ih =>
    rw [List.foldl_cons]
    have hstep : searchStep f (m, d) p = (m, d) := by
      simp [searchStep, not_lt.2 (h p (List.mem_cons_self p l))]
    rw [hstep]
    exact ih (fun q hq => h q (List.mem_cons_of_mem p hq))

/-- The fold only consumes the response's values on the iterated pairs. -/
lemma searchFold_congr (f g : ℚ → ℕ → ℚ) (l : List (ℚ × ℕ)) (acc : ℚ × ℚ × ℕ)
    (h : ∀ p ∈ l, f p.1 p.2 = g p.1 p.2) :
    l.foldl (searchStep f) acc = l.foldl (searchStep g) acc := by
  induction l generalizing acc with
  | nil => rfl
  | cons p l ih =>
    rw [List.foldl_cons, List.foldl_cons]
    have hstep : searchStep f acc p = searchStep g acc p := by
      simp [searchStep, h p (List.mem_cons_self p l)]
    rw [hstep]
    exact ih _ (fun q hq => h q (List.mem_cons_of_mem p hq))

end FoldLemmas

section CandidateLemmas

lemma pyClamp_nonneg (x : ℚ) : 0 ≤ pyClamp x := le_max_left 0 _

lemma pyClamp_le_90 (x : ℚ) : pyClamp x ≤ 90 :=
  max_le (by norm_num) (min_le_left _ _)

lemma mem_tiltCandidates_iff (off t : ℚ) :
    t ∈ tiltCandidates off ↔ ∃ b ∈ baseTilts, t = pyClamp ((b : ℚ) - off) := by
  rw [tiltCandidates, (List.perm_insertionSort (· ≤ ·) _).mem_iff, List.mem_dedup,
    List.mem_map]
  constructor
  · rintro ⟨b, hb, heq⟩
    exact ⟨b, hb, heq.symm⟩
  · rintro ⟨b, hb, heq⟩
    exact ⟨b, hb, heq.symm⟩

lemma tiltCandidates_bounds {off t : ℚ} (h : t ∈ tiltCandidates off) :
    0 ≤ t ∧ t ≤ 90 := by
  rcases (mem_tiltCandidates_iff off t).1 h with ⟨b, _, rfl⟩
  exact ⟨pyClamp_nonneg _, pyClamp_le_90 _⟩

lemma mem_searchGrid {lat off : ℚ} {p : ℚ × ℕ} (h : p ∈ searchGrid lat off) :
    p.1 ∈ tiltCandidates off ∧ p.2 ∈ azimuthCandidates lat := by
  rcases List.mem_flatMap.1 h with ⟨t, ht, hp⟩
  rcases List.mem_map.1 hp with ⟨a, ha, rfl⟩
  exact ⟨ht, ha⟩

lemma mem_searchGrid_of {lat off t : ℚ} {a : ℕ} (ht : t ∈ tiltCandidates off)
    (ha : a ∈ azimuthCandidates lat) : (t, a) ∈ searchGrid lat off :=
  List.mem_flatMap.2 ⟨t, ht, List.mem_map.2 ⟨a, ha, rfl⟩⟩

lemma mem_searchGridTest {lat off : ℚ} {p : ℚ × ℕ} (h : p ∈ searchGridTest lat off) :
    p.1 ∈ tiltCandidates off ∧ p.2 ∈ azimuthCandidatesTest lat := by
  rcases List.mem_flatMap.1 h with ⟨t, ht, hp⟩
  rcases List.mem_map.1 hp with ⟨a, ha, rfl⟩
  exact ⟨ht, ha⟩

lemma mem_azimuthCandidates_pos {lat : ℚ} (hlat : 0 ≤ lat) (a : ℕ) :
    a ∈ azimuthCandidates lat ↔ 5 ∣ a ∧ 90 ≤ a ∧ a ≤ 270 := by
  rw [azimuthCandidates, if_pos hlat, List.mem_range']
  constructor
  · rintro ⟨i, hi, rfl⟩
    omega
  · rintro ⟨hd, h1, h2⟩
    exact ⟨(a - 90) / 5, by omega, by omega⟩

lemma mem_azimuthCandidates_neg {lat : ℚ} (hlat : ¬ 0 ≤ lat) (a : ℕ) :
    a ∈ azimuthCandidates lat ↔ 5 ∣ a ∧ (270 ≤ a ∧ a ≤ 355 ∨ a ≤ 90) := by
  rw [azimuthCandidates, if_neg hlat, List.mem_map]
  constructor
  · rintro ⟨b, hb, rfl⟩
    rcases List.mem_range'.1 hb with ⟨i, hi, rfl⟩
    omega
  · rintro ⟨hd, h270 | h90⟩
    · exact ⟨a, List.mem_range'.2 ⟨(a - 270) / 5, by omega, by omega⟩, by omega⟩
    · exact ⟨a + 360, List.mem_range'.2 ⟨(a + 90) / 5, by omega, by omega⟩, by omega⟩

lemma azimuthCandidatesTest_subset {lat : ℚ} (hlat : 0 ≤ lat) :
    ∀ a ∈ azimuthCandidatesTest lat, a ∈ azimuthCandidates lat := by
  rw [azimuthCandidatesTest, if_pos hlat, azimuthCandidates, if_pos hlat]
  decide

end CandidateLemmas

section ResultLemmas

/-- The optimizer result, re-expressed: the reported annual irradiance is
the running maximum divided by 1000 and the reported pair is `bestPair`. -/
lemma getOptimalOrientation_eq (f : ℚ → ℕ → ℚ) (lat lon off : ℚ) :
    getOptimalOrientation f lat lon off =
      { optimal_tilt := (bestPair f lat off).1
        optimal_azimuth := (bestPair f lat off).2
        effective_tilt := (bestPair f lat off).1 + off
        ground_slope_offset := off
        annual_irradiance_kwh_m2 := annualMax f lat off / 1000 } := by
  simp only [getOptimalOrientation, bestPair, annualMax, searchFold_eq]

/-- The annual irradiance reported by the test copy. -/
lemma getOptimalOrientationTest_annual (f : ℚ → ℕ → ℚ) (lat lon off : ℚ) :
    (getOptimalOrientationTest f lat lon off).annual_irradiance_kwh_m2 =
      runningMax f 0 (searchGridTest lat off) / 1000 := by
  simp only [getOptimalOrientationTest, searchFold_eq]

/-- `bestPair` is either the initial `(0, 0)` or a grid element. -/
lemma bestPair_mem (f : ℚ → ℕ → ℚ) (lat off : ℚ) :
    bestPair f lat off = (0, 0) ∨ bestPair f lat off ∈ searchGrid lat off := by
  unfold bestPair
  by_cases h : 0 < annualMax f lat off
  · rw [if_pos h]
    rcases hfind : (searchGrid lat off).find?
        (fun p => decide (f p.1 p.2 = annualMax f lat off)) with _ | q
    · exact Or.inl (by rw [hfind]; rfl)
    · exact Or.inr (by rw [hfind, Option.getD_some]; exact List.mem_of_find?_eq_some hfind)
  · rw [if_neg h]
    exact Or.inl rfl

/-- When no candidate's annual sum is positive, the reduction never
updates: the final pair is `(0, 0)` and the maximum is 0. -/
lemma bestPair_of_no_positive (f : ℚ → ℕ → ℚ) (lat off : ℚ)
    (hb : ∀ q ∈ searchGrid lat off, f q.1 q.2 ≤ 0) :
    bestPair f lat off = (0, 0) ∧ annualMax f lat off = 0 := by
  have hM : annualMax f lat off = 0 :=
    le_antisymm (runningMax_le f 0 0 _ le_rfl hb) (le_runningMax_self f 0 _)
  refine ⟨?_, hM⟩
  unfold bestPair
  rw [if_neg (by rw [hM]; exact lt_irrefl 0)]

/-- When the first grid pair already attains the (positive) overall
maximum, the reduction returns it. -/
lemma bestPair_of_first_max (f : ℚ → ℕ → ℚ) (lat off : ℚ) (p : ℚ × ℕ)
    (rest : List (ℚ × ℕ)) (hg : searchGrid lat off = p :: rest)
    (hpos : 0 < f p.1 p.2) (hb : ∀ q ∈ rest, f q.1 q.2 ≤ f p.1 p.2) :
    bestPair f lat off = p ∧ annualMax f lat off = f p.1 p.2 := by
  have hM : annualMax f lat off = f p.1 p.2 := by
    unfold annualMax
    rw [hg]
    refine le_antisymm ?_ (le_runningMax f 0 _ p (List.mem_cons_self p rest))
    refine runningMax_le f 0 _ _ (le_of_lt hpos) ?_
    intro q hq
    rcases List.mem_cons.1 hq with rfl | hq
    · exact le_rfl
    · exact hb q hq
  refine ⟨?_, hM⟩
  unfold bestPair
  rw [if_pos (by rw [hM]; exact hpos), hg,
    List.find?_cons_of_pos _ (by simpa using hM.symm), Option.getD_some]

/-- The claim-C2-order reduction, characterised like the source one. -/
lemma specOrderedOptimalOrientation_eq (f : ℚ → ℕ → ℚ) (lat lon off : ℚ) :
    specOrderedOptimalOrientation f lat lon off =
      { optimal_tilt := (bestPairSpec f lat off).1
        optimal_azimuth := (bestPairSpec f lat off).2
        effective_tilt := (bestPairSpec f lat off).1 + off
        ground_slope_offset := off
        annual_irradiance_kwh_m2 := annualMaxSpec f lat off / 1000 } := by
  simp only [specOrderedOptimalOrientation, bestPairSpec, annualMaxSpec, searchFold_eq]

lemma bestPairSpec_of_first_max (f : ℚ → ℕ → ℚ) (lat off : ℚ) (p : ℚ × ℕ)
    (rest : List (ℚ × ℕ)) (hg : specAscendingGrid lat off = p :: rest)
    (hpos : 0 < f p.1 p.2) (hb : ∀ q ∈ rest, f q.1 q.2 ≤ f p.1 p.2) :
    bestPairSpec f lat off = p ∧ annualMaxSpec f lat off = f p.1 p.2 := by
  have hM : annualMaxSpec f lat off = f p.1 p.2 := by
    unfold annualMaxSpec
    rw [hg]
    refine le_antisymm ?_ (le_runningMax f 0 _ p (List.mem_cons_self p rest))
    refine runningMax_le f 0 _ _ (le_of_lt hpos) ?_
    intro q hq
    rcases List.mem_cons.1 hq with rfl | hq
    · exact le_rfl
    · exact hb q hq
  refine ⟨?_, hM⟩
  unfold bestPairSpec
  rw [if_pos (by rw [hM]; exact hpos), hg,
    List.find?_cons_of_pos _ (by simpa using hM.symm), Option.getD_some]

end ResultLemmas

unseal Rat.add Rat.sub Rat.mul Rat.inv in
/-- C3 (as stated, refuted): the hour offset is *not* `⌊longitude / 15⌋`
for every longitude; at `longitude = -16` the code computes `int(-16/15)
= -1` (truncation toward zero) while `⌊-16/15⌋ = -2`. -/
theorem C3_tz_offset_counterexample :
    tzOffset (-16) ≠ ⌊((-16 : ℚ) / 15)⌋ ∧ tzOffset (-16) = -1 ∧
    ⌊((-16 : ℚ) / 15)⌋ = -2 := by
  refine ⟨by decide, by decide, by decide⟩

/-- C3 (amended): the derived hour offset truncates `longitude / 15`
toward zero: it is `⌊longitude / 15⌋` for `longitude ≥ 0` and
`⌈longitude / 15⌉` for `longitude < 0`. -/
theorem C3_tz_offset_amended (longitude : ℚ) :
    tzOffset longitude =
      if 0 ≤ longitude then ⌊longitude / 15⌋ else ⌈longitude / 15⌉ := by
  unfold tzOffset pyTrunc
  have hc : (0 ≤ longitude / 15) ↔ 0 ≤ longitude := by
    rw [le_div_iff₀ (by norm_num : (0 : ℚ) < 15), zero_mul]
  by_cases h : 0 ≤ longitude
  · rw [if_pos (hc.2 h), if_pos h]
  · rw [if_neg (fun hh => h (hc.1 hh)), if_neg h, Int.floor_neg, neg_neg]

unseal Rat.add Rat.sub Rat.mul Rat.inv in
/-- C4 (code bug): the handler's own comment promises latitude normalized
into [-90, 90], and the claim's sample points do hold (95 ↦ 85,
185 ↦ -175), but the reflection formula sends the accepted raw latitude
300 to -120, outside [-90, 90]. -/
theorem C4_latitude_normalization_code_bug :
    normalizeLatitude 300 = -120 ∧ normalizeLatitude 300 < -90 ∧
    (-360 : ℚ) ≤ 300 ∧ (300 : ℚ) ≤ 360 ∧
    normalizeLatitude 95 = 85 ∧ normalizeLongitude 185 = -175 := by
  refine ⟨by decide, by decide, by decide, by decide, by decide, by decide⟩

unseal Rat.add Rat.sub Rat.mul Rat.inv in
/-- C5 (confirmed): the tilt candidate list is strictly ascending (hence
duplicate-free), its members are exactly the clamped values
`clamp(base_tilt - offset, 0, 90)` for base tilts {0, 5, ..., 90}, and
the boundary offsets collapse it to `[0]` resp. `[90]`. -/
theorem C5_tilt_candidates (off : ℚ) :
    (tiltCandidates off).Sorted (· < ·) ∧
    (∀ t : ℚ, t ∈ tiltCandidates off ↔ ∃ b ∈ baseTilts, t = pyClamp ((b : ℚ) - off)) ∧
    baseTilts = [0, 5, 10, 15, 20, 25, 30, 35, 40, 45, 50, 55, 60, 65, 70, 75, 80, 85, 90] ∧
    tiltCandidates 90 = [0] ∧ tiltCandidates (-90) = [90] := by
  refine ⟨?_, fun t => mem_tiltCandidates_iff off t, by decide, by decide, by decide⟩
  have hs : (tiltCandidates off).Sorted (· ≤ ·) := List.sorted_insertionSort _ _
  have hn : (tiltCandidates off).Nodup :=
    (List.perm_insertionSort _ _).nodup_iff.2 (List.nodup_dedup _)
  exact hs.lt_of_le hn

/-- C6 (confirmed): the azimuth candidates are exactly the multiples of 5
in [90, 270] for latitude ≥ 0, and for latitude < 0 exactly the multiples
of 5 in [270, 355] ∪ [0, 90] (the values `270..450 step 5` wrapped modulo
360). -/
theorem C6_azimuth_candidates (lat : ℚ) (a : ℕ) :
    a ∈ azimuthCandidates lat ↔
      (if 0 ≤ lat then 5 ∣ a ∧ 90 ≤ a ∧ a ≤ 270
       else 5 ∣ a ∧ (270 ≤ a ∧ a ≤ 355 ∨ a ≤ 90)) := by
  by_cases h : 0 ≤ lat
  · rw [if_pos h]
    exact mem_azimuthCandidates_pos h a
  · rw [if_neg h]
    exact mem_azimuthCandidates_neg h a

/-- C7 (confirmed): for every offset in [-90, 90] and every model
response, the result satisfies `effective_tilt = optimal_tilt + offset`
and echoes the offset unchanged. -/
theorem C7_effective_tilt (f : ℚ → ℕ → ℚ) (lat lon off : ℚ)
    (h1 : -90 ≤ off) (h2 : off ≤ 90) :
    (getOptimalOrientation f lat lon off).effective_tilt =
      (getOptimalOrientation f lat lon off).optimal_tilt + off ∧
    (getOptimalOrientation f lat lon off).ground_slope_offset = off := by
  rw [getOptimalOrientation_eq]
  exact ⟨by dsimp only, by dsimp only⟩

/-- Witness for C7 at latitude 40, longitude -74, offset 15 with the
all-zero model response. -/
theorem C7_effective_tilt_witness :
    (-90 : ℚ) ≤ 15 ∧ (15 : ℚ) ≤ 90 ∧
    ((getOptimalOrientation (fun _ _ => 0) 40 (-74) 15).effective_tilt =
      (getOptimalOrientation (fun _ _ => 0) 40 (-74) 15).optimal_tilt + 15 ∧
     (getOptimalOrientation (fun _ _ => 0) 40 (-74) 15).ground_slope_offset = 15) :=
  ⟨by norm_num, by norm_num,
    C7_effective_tilt (fun _ _ => 0) 40 (-74) 15 (by norm_num) (by norm_num)⟩

lemma searchGrid_cons {lat off t : ℚ} {a : ℕ} {ts : List ℚ} {as : List ℕ}
    (htl : tiltCandidates off = t :: ts) (haz : azimuthCandidates lat = a :: as) :
    searchGrid lat off =
      (t, a) :: (as.map (fun x => (t, x)) ++
        ts.flatMap (fun u => (a :: as).map (fun x => (u, x)))) := by
  rw [searchGrid, htl, haz, List.flatMap_cons, List.map_cons, List.cons_append]

lemma specAscendingGrid_cons {lat off t : ℚ} {a : ℕ} {ts : List ℚ} {as : List ℕ}
    (htl : tiltCandidates off = t :: ts)
    (haz : (azimuthCandidates lat).insertionSort (· ≤ ·) = a :: as) :
    specAscendingGrid lat off =
      (t, a) :: (as.map (fun x => (t, x)) ++
        ts.flatMap (fun u => (a :: as).map (fun x => (u, x)))) := by
  rw [specAscendingGrid, htl, haz, List.flatMap_cons, List.map_cons, List.cons_append]

lemma searchFold_first_max (f : ℚ → ℕ → ℚ) (p : ℚ × ℕ) (l : List (ℚ × ℕ))
    (hpos : 0 < f p.1 p.2) (hb : ∀ q ∈ l, f q.1 q.2 ≤ f p.1 p.2) :
    (p :: l).foldl (searchStep f) (0, 0, 0) = (f p.1 p.2, p.1, p.2) := by
  rw [List.foldl_cons]
  have hstep : searchStep f (0, 0, 0) p = (f p.1 p.2, p.1, p.2) := by
    simp [searchStep, hpos]
  rw [hstep]
  exact searchFold_no_update f _ _ l hb

/-- C1 (amended): the result always satisfies `optimal_tilt ∈ [0, 90]` and
`annual_irradiance_kwh_m2 ≥ 0`; the azimuth lies in the hemisphere band
*or* equals the initial value 0 (reached whenever no candidate's annual
sum strictly exceeds the initial running maximum 0; for southern
latitudes 0 already lies in the band). -/
theorem C1_invariants_amended (f : ℚ → ℕ → ℚ) (lat lon off : ℚ) :
    0 ≤ (getOptimalOrientation f lat lon off).optimal_tilt ∧
    (getOptimalOrientation f lat lon off).optimal_tilt ≤ 90 ∧
    0 ≤ (getOptimalOrientation f lat lon off).annual_irradiance_kwh_m2 ∧
    (if 0 ≤ lat then
      (90 ≤ (getOptimalOrientation f lat lon off).optimal_azimuth ∧
        (getOptimalOrientation f lat lon off).optimal_azimuth ≤ 270) ∨
        (getOptimalOrientation f lat lon off).optimal_azimuth = 0
     else
      (270 ≤ (getOptimalOrientation f lat lon off).optimal_azimuth ∧
        (getOptimalOrientation f lat lon off).optimal_azimuth ≤ 355) ∨
        (getOptimalOrientation f lat lon off).optimal_azimuth ≤ 90) := by
  rw [getOptimalOrientation_eq]
  dsimp only
  have hmem := bestPair_mem f lat off
  have htilt : 0 ≤ (bestPair f lat off).1 ∧ (bestPair f lat off).1 ≤ 90 := by
    rcases hmem with h | h
    · rw [h]
      exact ⟨le_rfl, by norm_num⟩
    · exact tiltCandidates_bounds (mem_searchGrid h).1
  have hannual : 0 ≤ annualMax f lat off / 1000 :=
    div_nonneg (le_runningMax_self f 0 _) (by norm_num)
  refine ⟨htilt.1, htilt.2, hannual, ?_⟩
  by_cases hlat : 0 ≤ lat
  · rw [if_pos hlat]
    rcases hmem with h | h
    · rw [h]
      exact Or.inr rfl
    · have ha := (mem_azimuthCandidates_pos hlat _).1 (mem_searchGrid h).2
      exact Or.inl ⟨ha.2.1, ha.2.2⟩
  · rw [if_neg hlat]
    rcases hmem with h | h
    · rw [h]
      exact Or.inr (by norm_num)
    · have ha := (mem_azimuthCandidates_neg hlat _).1 (mem_searchGrid h).2
      rcases ha.2 with h2 | h2
      · exact Or.inl h2
      · exact Or.inr h2

/-- C1 (as stated, refuted): for the northern latitude 40 and an all-zero
model response the strict comparison never fires, so the returned azimuth
is the initial 0, outside the claimed band [90, 270]. -/
theorem C1_invariants_counterexample :
    (getOptimalOrientation (fun _ _ => 0) 40 (-74) 0).optimal_azimuth = 0 ∧
    ¬(90 ≤ (getOptimalOrientation (fun _ _ => 0) 40 (-74) 0).optimal_azimuth ∧
      (getOptimalOrientation (fun _ _ => 0) 40 (-74) 0).optimal_azimuth ≤ 270) ∧
    (0 : ℚ) ≤ 40 := by
  have hz : (getOptimalOrientation (fun _ _ => 0) 40 (-74) 0).optimal_azimuth = 0 := by
    rw [getOptimalOrientation_eq]
    dsimp only
    rw [(bestPair_of_no_positive (fun _ _ => 0) 40 0 (fun q _ => le_rfl)).1]
  refine ⟨hz, ?_, by norm_num⟩
  rw [hz]
  omega

/-- C2 (amended): the reduction is exactly a strict-improvement max-fold
over the constructed grid: the returned annual irradiance is
`runningMax / 1000`, and the returned pair is the first grid pair (in the
code's tilt-major, azimuth-list order) attaining the running maximum when
that maximum is positive, else the initial `(0, 0)`. -/
theorem C2_reduction_amended (f : ℚ → ℕ → ℚ) (lat lon off : ℚ) :
    getOptimalOrientation f lat lon off =
      { optimal_tilt := (bestPair f lat off).1
        optimal_azimuth := (bestPair f lat off).2
        effective_tilt := (bestPair f lat off).1 + off
        ground_slope_offset := off
        annual_irradiance_kwh_m2 := annualMax f lat off / 1000 } :=
  getOptimalOrientation_eq f lat lon off

unseal Rat.add Rat.sub Rat.mul Rat.inv in
/-- C2 (as stated, refuted): for a southern latitude the azimuth loop
follows the constructed list 270, 275, ..., 355, 0, 5, ..., 90, not
ascending numeric order; with a constant response every pair ties, the
code returns the first-iterated azimuth 270, while the claim's ascending
order would return 0. -/
theorem C2_iteration_order_counterexample :
    (getOptimalOrientation (fun _ _ => 1) (-1) 0 0).optimal_azimuth = 270 ∧
    (specOrderedOptimalOrientation (fun _ _ => 1) (-1) 0 0).optimal_azimuth = 0 ∧
    (270 : ℕ) ≠ 0 := by
  have htl : tiltCandidates (0 : ℚ) =
      (0 : ℚ) :: [5, 10, 15, 20, 25, 30, 35, 40, 45, 50, 55, 60, 65, 70, 75, 80, 85, 90] := by
    decide
  have hmain : (getOptimalOrientation (fun _ _ => 1) (-1) 0 0).optimal_azimuth = 270 := by
    have haz : azimuthCandidates (-1) =
        270 :: [275, 280, 285, 290, 295, 300, 305, 310, 315, 320, 325, 330, 335, 340, 345,
          350, 355, 0, 5, 10, 15, 20, 25, 30, 35, 40, 45, 50, 55, 60, 65, 70, 75, 80, 85, 90] := by
      decide
    have hbp := (bestPair_of_first_max (fun _ _ => 1) (-1) 0 ((0 : ℚ), 270) _
      (searchGrid_cons htl haz) (by norm_num) (fun q _ => le_refl 1)).1
    have he := getOptimalOrientation_eq (fun _ _ => 1) (-1) 0 0
    rw [hbp] at he
    rw [he]
  have hspec : (specOrderedOptimalOrientation (fun _ _ => 1) (-1) 0 0).optimal_azimuth = 0 := by
    have h0 : (0 : ℕ) ∈ (azimuthCandidates (-1)).insertionSort (· ≤ ·) :=
      ((List.perm_insertionSort _ _).mem_iff).2 (by decide)
    rcases hs : (azimuthCandidates (-1)).insertionSort (· ≤ ·) with _ | ⟨a, as⟩
    · rw [hs] at h0
      exact absurd h0 (List.not_mem_nil 0)
    · have hsorted := List.sorted_insertionSort (· ≤ ·) (azimuthCandidates (-1))
      rw [hs] at hsorted h0
      have ha0 : a = 0 := by
        rcases List.mem_cons.1 h0 with h | h
        · exact h.symm
        · exact Nat.le_antisymm (List.rel_of_sorted_cons hsorted 0 h) (Nat.zero_le a)
      subst ha0
      have hbp := (bestPairSpec_of_first_max (fun _ _ => 1) (-1) 0 ((0 : ℚ), 0) _
        (specAscendingGrid_cons htl hs) (by norm_num) (fun q _ => le_refl 1)).1
      have he := specOrderedOptimalOrientation_eq (fun _ _ => 1) (-1) 0 0
      rw [hbp] at he
      rw [he]
  exact ⟨hmain, hspec, by omega⟩

/-- C9 (confirmed): the optimizer's output is determined by latitude,
longitude, offset and the model's annual sums on the evaluated candidate
grid; two responses agreeing there (e.g. two calls with a frozen model
and reference time) yield identical result dictionaries. -/
theorem C9_determinism (f g : ℚ → ℕ → ℚ) (lat lon off : ℚ)
    (h : ∀ p ∈ searchGrid lat off, f p.1 p.2 = g p.1 p.2) :
    getOptimalOrientation f lat lon off = getOptimalOrientation g lat lon off := by
  simp only [getOptimalOrientation]
  rw [searchFold_congr f g _ _ h]

/-- Witness for C9: the all-zero response and a response differing only
at the never-evaluated azimuth 1000 agree on the grid and produce the
same result. -/
theorem C9_determinism_witness :
    (∀ p ∈ searchGrid 40 0,
      (fun (_ : ℚ) (_ : ℕ) => (0 : ℚ)) p.1 p.2 =
        (fun (_ : ℚ) (a : ℕ) => if a = 1000 then (5 : ℚ) else 0) p.1 p.2) ∧
    getOptimalOrientation (fun _ _ => 0) 40 (-74) 0 =
      getOptimalOrientation (fun _ a => if a = 1000 then (5 : ℚ) else 0) 40 (-74) 0 := by
  have h : ∀ p ∈ searchGrid 40 0,
      (fun (_ : ℚ) (_ : ℕ) => (0 : ℚ)) p.1 p.2 =
        (fun (_ : ℚ) (a : ℕ) => if a = 1000 then (5 : ℚ) else 0) p.1 p.2 := by
    intro p hp
    have ha := (mem_azimuthCandidates_pos (by norm_num) p.2).1 (mem_searchGrid hp).2
    have hne : p.2 ≠ 1000 := by omega
    simp [hne]
  exact ⟨h, C9_determinism _ _ 40 (-74) 0 h⟩

/-- C10 (amended): the two copies share the timezone derivation, the tilt
candidates and the reduction, but search different azimuth bands; for
latitude ≥ 0 the test copy's band {120, ..., 240} is contained in the
main copy's {90, ..., 270}, so the test copy's annual irradiance never
exceeds the main copy's. -/
theorem C10_test_copy_amended (f : ℚ → ℕ → ℚ) (lat lon off : ℚ) (hlat : 0 ≤ lat) :
    (getOptimalOrientationTest f lat lon off).annual_irradiance_kwh_m2 ≤
      (getOptimalOrientation f lat lon off).annual_irradiance_kwh_m2 := by
  rw [getOptimalOrientationTest_annual, getOptimalOrientation_eq]
  dsimp only
  unfold annualMax
  gcongr
  refine runningMax_le f 0 _ _ (le_runningMax_self f 0 _) ?_
  intro p hp
  rcases mem_searchGridTest hp with ⟨ht, ha⟩
  exact le_runningMax f 0 _ p
    (mem_searchGrid_of ht (azimuthCandidatesTest_subset hlat _ ha))

/-- Witness for C10 (amended) at latitude 40 with the constant response. -/
theorem C10_test_copy_amended_witness :
    (0 : ℚ) ≤ 40 ∧
    (getOptimalOrientationTest (fun _ _ => 1) 40 (-74) 0).annual_irradiance_kwh_m2 ≤
      (getOptimalOrientation (fun _ _ => 1) 40 (-74) 0).annual_irradiance_kwh_m2 :=
  ⟨by norm_num, C10_test_copy_amended _ 40 (-74) 0 (by norm_num)⟩

unseal Rat.add Rat.sub Rat.mul Rat.inv in
/-- C10 (as stated, refuted): a response rewarding only azimuth 90 —
searched by the main copy, outside the test copy's band — makes the two
copies return different results at latitude 40. -/
theorem C10_copies_differ_counterexample :
    getOptimalOrientation (fun _ a => if a = 90 then (1 : ℚ) else 0) 40 (-74) 0 ≠
      getOptimalOrientationTest (fun _ a => if a = 90 then (1 : ℚ) else 0) 40 (-74) 0 := by
  have htl : tiltCandidates (0 : ℚ) =
      (0 : ℚ) :: [5, 10, 15, 20, 25, 30, 35, 40, 45, 50, 55, 60, 65, 70, 75, 80, 85, 90] := by
    decide
  have haz : azimuthCandidates 40 =
      90 :: [95, 100, 105, 110, 115, 120, 125, 130, 135, 140, 145, 150, 155, 160, 165, 170,
        175, 180, 185, 190, 195, 200, 205, 210, 215, 220, 225, 230, 235, 240, 245, 250, 255,
        260, 265, 270] := by
    decide
  have h1 : (getOptimalOrientation
      (fun _ a => if a = 90 then (1 : ℚ) else 0) 40 (-74) 0).annual_irradiance_kwh_m2 =
      1 / 1000 := by
    rw [getOptimalOrientation_eq]
    dsimp only
    rw [(bestPair_of_first_max (fun _ a => if a = 90 then (1 : ℚ) else 0) 40 0 ((0 : ℚ), 90) _
      (searchGrid_cons htl haz) (by norm_num) ?_).2]
    · norm_num
    · intro q hq
      dsimp only
      split <;> norm_num
  have h2 : (getOptimalOrientationTest
      (fun _ a => if a = 90 then (1 : ℚ) else 0) 40 (-74) 0).annual_irradiance_kwh_m2 = 0 := by
    have hb : ∀ p ∈ searchGridTest 40 0,
        (fun (_ : ℚ) (a : ℕ) => if a = 90 then (1 : ℚ) else 0) p.1 p.2 ≤ 0 := by
      intro p hp
      have ha := (mem_searchGridTest hp).2
      rw [azimuthCandidatesTest, if_pos (by norm_num : (0 : ℚ) ≤ 40)] at ha
      rcases List.mem_range'.1 ha with ⟨i, hi, he⟩
      have hne : p.2 ≠ 90 := by omega
      simp [hne]
    rw [getOptimalOrientationTest_annual]
    rw [le_antisymm (runningMax_le _ 0 0 _ le_rfl hb) (le_runningMax_self _ 0 _)]
    norm_num
  intro h
  rw [h, h2] at h1
  exact absurd h1 (by norm_num)

section HandlerLemmas

lemma apiView_latitude_missing_iff (f : ℚ → ℕ → ℚ) (b : Body) :
    solarGeometryApiView f b = .badRequest "Missing required parameter: latitude" ↔
      b.latitude = none := by
  obtain ⟨blat, blon, boff⟩ := b
  rcases blat with _ | jlat
  · simp [solarGeometryApiView]
  · rcases blon with _ | jlon
    · rcases jlat with q | _ | _ <;> simp [solarGeometryApiView, pyFloat]
    · rcases boff with _ | joff <;>
        rcases jlat with q | _ | _ <;> rcases jlon with q2 | _ | _ <;>
        [skip; skip; skip; skip; skip; skip; skip; skip; skip;
         rcases joff with q3 | _ | _; rcases joff with q3 | _ | _;
         rcases joff with q3 | _ | _; rcases joff with q3 | _ | _;
         rcases joff with q3 | _ | _; rcases joff with q3 | _ | _;
         rcases joff with q3 | _ | _; rcases joff with q3 | _ | _;
         rcases joff with q3 | _ | _] <;>
        simp only [solarGeometryApiView, pyFloat, parseOffset] <;>
        split_ifs <;> simp_all

lemma apiView_longitude_missing_iff (f : ℚ → ℕ → ℚ) (b : Body) :
    solarGeometryApiView f b = .badRequest "Missing required parameter: longitude" ↔
      (b.latitude ≠ none ∧ b.longitude = none) := by
  obtain ⟨blat, blon, boff⟩ := b
  rcases blat with _ | jlat
  · simp [solarGeometryApiView]
  · rcases blon with _ | jlon
    · rcases jlat with q | _ | _ <;> simp [solarGeometryApiView, pyFloat]
    · rcases boff with _ | joff <;>
        rcases jlat with q | _ | _ <;> rcases jlon with q2 | _ | _ <;>
        [skip; skip; skip; skip; skip; skip; skip; skip; skip;
         rcases joff with q3 | _ | _; rcases joff with q3 | _ | _;
         rcases joff with q3 | _ | _; rcases joff with q3 | _ | _;
         rcases joff with q3 | _ | _; rcases joff with q3 | _ | _;
         rcases joff with q3 | _ | _; rcases joff with q3 | _ | _;
         rcases joff with q3 | _ | _] <;>
        simp only [solarGeometryApiView, pyFloat, parseOffset] <;>
        split_ifs <;> simp_all

lemma apiView_numeric_body (f : ℚ → ℕ → ℚ) (qa qo s : ℚ) :
    solarGeometryApiView f ⟨some (.num qa), some (.num qo), some (.num s)⟩ =
      (if qa < -360 ∨ 360 < qa then
        .badRequest "Invalid input values: Latitude must be between -360 and 360"
      else if qo < -360 ∨ 360 < qo then
        .badRequest "Invalid input values: Longitude must be between -360 and 360"
      else if s < -90 ∨ 90 < s then
        .badRequest "Invalid input values: Offset (ground slope) must be between -90 and 90 degrees"
      else
        .ok (normalizeLatitude qa) (normalizeLongitude qo) s
          (getOptimalOrientation f (normalizeLatitude qa) (normalizeLongitude qo) s).optimal_tilt
          (getOptimalOrientation f (normalizeLatitude qa) (normalizeLongitude qo) s).optimal_azimuth
          (getOptimalOrientation f (normalizeLatitude qa) (normalizeLongitude qo) s).effective_tilt
          (pyRound2 (getOptimalOrientation f (normalizeLatitude qa)
            (normalizeLongitude qo) s).annual_irradiance_kwh_m2)) := by
  simp only [solarGeometryApiView, pyFloat, parseOffset]
  rfl

lemma apiView_offset_absent (f : ℚ → ℕ → ℚ) (qa qo : ℚ) :
    solarGeometryApiView f ⟨some (.num qa), some (.num qo), none⟩ =
      solarGeometryApiView f ⟨some (.num qa), some (.num qo), some (.num 0)⟩ := by
  simp only [solarGeometryApiView, pyFloat, parseOffset]

lemma apiView_offset_null (f : ℚ → ℕ → ℚ) (qa qo : ℚ) :
    solarGeometryApiView f ⟨some (.num qa), some (.num qo), some .null⟩ =
      solarGeometryApiView f ⟨some (.num qa), some (.num qo), some (.num 0)⟩ := by
  simp only [solarGeometryApiView, pyFloat, parseOffset]

end HandlerLemmas

/-- C8 (amended): the latitude-missing message appears exactly when
`latitude` is absent; the longitude-missing message appears exactly when
`longitude` is absent *and* `latitude` is present (when both are absent
the latitude message wins); for numeric bodies the handler checks the raw
ranges in order, with the range/offset messages prefixed by
`Invalid input values: `, and otherwise returns 200; an absent or `null`
offset behaves exactly like offset 0. -/
theorem C8_http_validation_amended (f : ℚ → ℕ → ℚ) (b : Body) (qa qo s : ℚ) :
    (solarGeometryApiView f b = .badRequest "Missing required parameter: latitude" ↔
      b.latitude = none) ∧
    (solarGeometryApiView f b = .badRequest "Missing required parameter: longitude" ↔
      (b.latitude ≠ none ∧ b.longitude = none)) ∧
    (solarGeometryApiView f ⟨some (.num qa), some (.num qo), some (.num s)⟩ =
      (if qa < -360 ∨ 360 < qa then
        .badRequest "Invalid input values: Latitude must be between -360 and 360"
      else if qo < -360 ∨ 360 < qo then
        .badRequest "Invalid input values: Longitude must be between -360 and 360"
      else if s < -90 ∨ 90 < s then
        .badRequest "Invalid input values: Offset (ground slope) must be between -90 and 90 degrees"
      else
        .ok (normalizeLatitude qa) (normalizeLongitude qo) s
          (getOptimalOrientation f (normalizeLatitude qa) (normalizeLongitude qo) s).optimal_tilt
          (getOptimalOrientation f (normalizeLatitude qa) (normalizeLongitude qo) s).optimal_azimuth
          (getOptimalOrientation f (normalizeLatitude qa) (normalizeLongitude qo) s).effective_tilt
          (pyRound2 (getOptimalOrientation f (normalizeLatitude qa)
            (normalizeLongitude qo) s).annual_irradiance_kwh_m2))) ∧
    (solarGeometryApiView f ⟨some (.num qa), some (.num qo), none⟩ =
      solarGeometryApiView f ⟨some (.num qa), some (.num qo), some (.num 0)⟩) ∧
    (solarGeometryApiView f ⟨some (.num qa), some (.num qo), some .null⟩ =
      solarGeometryApiView f ⟨some (.num qa), some (.num qo), some (.num 0)⟩) :=
  ⟨apiView_latitude_missing_iff f b, apiView_longitude_missing_iff f b,
    apiView_numeric_body f qa qo s, apiView_offset_absent f qa qo,
    apiView_offset_null f qa qo⟩

/-- C8 (as stated, refuted): on a body missing both coordinates the
handler reports the latitude message, so the longitude-missing message is
*not* returned "exactly when" the longitude key is absent. -/
theorem C8_missing_message_counterexample :
    solarGeometryApiView (fun _ _ => 0) ⟨none, none, none⟩ =
      .badRequest "Missing required parameter: latitude" ∧
    Body.longitude ⟨none, none, none⟩ = none ∧
    solarGeometryApiView (fun _ _ => 0) ⟨none, none, none⟩ ≠
      .badRequest "Missing required parameter: longitude" := by
  refine ⟨by decide, rfl, by decide⟩
